import Mathlib

/-!
Verification of the unifiedllm provider-adapter layer.

This file shallowly embeds the provider adapters of the `unifiedllm`
repository (src/unifiedllm/providers/{base,openai,anthropic,google}.py)
in Lean 4 and proves properties of the embedded code.

Modelling conventions:
* Python values flowing through JSON payloads are modelled by `JVal`
  (`JVal.null` models Python `None`; `JVal.real` models non-integer numbers).
* A Python `dict[str, Any]` is modelled by an association list `PyDict`
  with Python's dict semantics: `dset` replaces an existing binding in
  place or appends a new one at the end, `pyGet` is `dict.get` (absent
  key gives `None`), `dupdate` is `dict.update`.
* A message dict `{"role": .., "content": ..}` is modelled by `Msg`; an
  absent key is modelled by `JVal.null`, which is sound because the code
  only reads those keys through `dict.get` (absent and `None` coincide).
* `httpx.Response` is modelled by `RawResp`: `jsonBody = none` models a
  body on which `.json()` raises `ValueError`, `text` is the raw body text.
* The HTTP transport is an oracle `JVal → TransportResult`; the chat
  entry points return, besides their result, the list of payloads that
  were posted to the transport, so "the network is never reached" is the
  statement that this list is empty.
* Python `str()` of non-string containers is simplified to a fixed token
  (`pyStr`); the adapters under verification never apply it to containers.
-/

/-- A Python/JSON value. -/
inductive JVal where
  | null
  | bool (b : Bool)
  | int (n : Int)
  | real (q : Rat)
  | str (s : String)
  | arr (elems : List JVal)
  | obj (fields : List (String × JVal))
deriving Repr

/-- A Python `dict[str, Any]` with string keys, in insertion order. -/
abbrev PyDict := List (String × JVal)

/-- First binding of `k`, as Python dict lookup (keys are unique in dicts
built by the code, so first = only). -/
def dget : PyDict → String → Option JVal
  | [], _ => none
  | (k', v') :: rest, k => if k' = k then some v' else dget rest k

/-- `d[k] = v` in Python: replace the binding in place, else append. -/
def dset : PyDict → String → JVal → PyDict
  | [], k, v => [(k, v)]
  | (k', v') :: rest, k, v =>
      if k' = k then (k, v) :: rest else (k', v') :: dset rest k v

/-- Python `dict.update`: apply `dset` for each binding of `cfg` in order. -/
def dupdate (d cfg : PyDict) : PyDict :=
  cfg.foldl (fun acc e => dset acc e.1 e.2) d

/-- Python `dict.setdefault(k, v)`. -/
def dsetdefault (d : PyDict) (k : String) (v : JVal) : PyDict :=
  match dget d k with
  | some _ => d
  | none => dset d k v

/-- Last binding of `k` in `d` (the one `dict.update` leaves in force when
`d` is used as the update source). -/
def dlast (d : PyDict) (k : String) : Option JVal :=
  dget d.reverse k

/-- The dict has no duplicate keys (true of every dict the code builds). -/
def dnodup : PyDict → Bool
  | [] => true
  | (k, _) :: rest => (dget rest k).isNone && dnodup rest

/-- Python `dict.get(k)`: an absent key reads as `None`. -/
def pyGet (d : PyDict) (k : String) : JVal :=
  match dget d k with
  | some v => v
  | none => .null

/-- Python truthiness of a value. -/
def pyTruthy : JVal → Bool
  | .null => false
  | .bool b => b
  | .int n => n != 0
  | .real q => q != 0
  | .str s => s != ""
  | .arr l => !l.isEmpty
  | .obj l => !l.isEmpty

/-- Python `a or b`. -/
def pyOr (a b : JVal) : JVal :=
  if pyTruthy a then a else b

/-- Python `a or b` on `Optional[str]` values. -/
def pyOrStr (a b : Option String) : Option String :=
  match a with
  | some s => if s = "" then b else some s
  | none => b

/-- Truthiness of a Python `Optional[str]`. -/
def optStrTruthy : Option String → Bool
  | some s => s != ""
  | none => false

/-- Python `str()`. Containers render as a fixed token: the adapters never
apply `str()` to a container on the paths under verification. -/
def pyStr : JVal → String
  | .null => "None"
  | .bool true => "True"
  | .bool false => "False"
  | .int n => toString n
  | .real q => toString q
  | .str s => s
  | .arr _ => "[...]"
  | .obj _ => "{...}"

/-- Python `str.lower()` (ASCII letters, as in the roles at hand). -/
def strLower (s : String) : String :=
  ⟨s.data.map Char.toLower⟩

/-- Python `str.strip()`: drop leading and trailing whitespace. -/
def strStrip (s : String) : String :=
  ⟨((s.data.dropWhile Char.isWhitespace).reverse.dropWhile
      Char.isWhitespace).reverse⟩

/-- Is the value a JSON/Python list? -/
def JVal.isArr : JVal → Bool
  | .arr _ => true
  | _ => false

/-- Is the value a JSON/Python dict? -/
def JVal.isObj : JVal → Bool
  | .obj _ => true
  | _ => false

/-- Is the value a Python `int`? -/
def JVal.isInt : JVal → Bool
  | .int _ => true
  | _ => false

/-- Is the value a Python `str`? -/
def JVal.isStr : JVal → Bool
  | .str _ => true
  | _ => false

/-- HTTP response headers (httpx lower-cases keys; keys here are assumed
lower-case), with `headers.get`. -/
abbrev Headers := List (String × String)

/-- `httpx.Headers.get`. -/
def hget : Headers → String → Option String
  | [], _ => none
  | (k', v') :: rest, k => if k' = k then some v' else hget rest k

-- Sanity checks of the dict model (Python semantics).
example : dupdate [("a", .int 1)] [("b", .int 2)] = [("a", .int 1), ("b", .int 2)] := rfl
example : dupdate [("a", .int 1)] [("a", .int 2)] = [("a", .int 2)] := rfl
example : pyGet [("a", .null)] "a" = .null := rfl
example : pyGet [] "a" = .null := rfl

/-! ## Error taxonomy (src/unifiedllm/errors.py) and data types
(src/unifiedllm/types.py) -/

/-- The errors the adapter layer can raise (`errors.py` plus the plain
Python `ValueError`/`TypeError` raised during message conversion and
configuration). Field order follows the dataclasses. -/
inductive PErr where
  /-- `ProviderHTTPError(provider, display_name, model)`. -/
  | providerHTTP (provider displayName model : String)
  /-- `ProviderAPIError(provider, display_name, model, status_code,
  error_type, code, request_id, detail, raw)`; `detail`, `error_type` and
  `code` hold whatever Python value the extractor produced (`.null` = None). -/
  | providerAPI (provider displayName model : String) (statusCode : Nat)
      (errorType code : JVal) (requestId : Option String)
      (detail : JVal) (raw : JVal)
  /-- `ProviderParseError(provider, display_name, model, status_code,
  detail, raw, suggestion)`. -/
  | providerParse (provider displayName model : String)
      (statusCode : Option Nat) (detail : String) (raw : JVal)
      (suggestion : JVal)
  /-- `MissingAPIKeyError(provider, display_name, model, suggestion)`. -/
  | missingKey (provider displayName model : String) (suggestion : String)
  /-- Python `ValueError(msg)`. -/
  | valueError (msg : String)
  /-- Python `AttributeError`: `.strip()` applied to a non-string role. -/
  | attributeError (msg : String)
deriving Repr

/-- Is the error a `ProviderParseError`? -/
def isParseErr {α : Type} : Except PErr α → Bool
  | .error (.providerParse _ _ _ _ _ _ _) => true
  | _ => false

/-- The raw `httpx.Response` that the transport hands back.
`jsonBody = none` models a body on which `resp.json()` raises. -/
structure RawResp where
  status_code : Nat
  text : String
  jsonBody : Option JVal
  headers : Headers

/-- Outcome of `HTTPClient.post` (src/unifiedllm/http.py): a timeout, a
network failure, an HTTP status >= 400 (`HTTPStatusError(resp)`), or a
success together with the measured latency. -/
inductive TransportResult where
  | timeout
  | network
  | statusErr (resp : RawResp)
  | ok (resp : RawResp) (latency_ms : Rat)

/-- `types.HTTPResponse`: the validated JSON-object response. -/
structure HTTPResp where
  data : PyDict
  status_code : Nat
  latency_ms : Rat
  headers : Headers

/-- `types.APIErrorDetails`. `message`, `error_type`, `code` and `raw` hold
whatever Python value the vendor extractor produced (`.null` = None). -/
structure APIErrorDetails where
  message : JVal := .null
  error_type : JVal := .null
  code : JVal := .null
  raw : JVal := .null
  request_id : Option String := none
deriving Repr

/-- `types.LLMUsage`: each counter is whatever value the vendor payload
carried (`.null` = None). -/
structure LLMUsage where
  prompt_tokens : JVal := .null
  completion_tokens : JVal := .null
  total_tokens : JVal := .null
deriving Repr

/-- `types.ChatResponse` (the normalized response). -/
structure ChatResp where
  text : String
  raw : PyDict
  usage : Option LLMUsage
  provider : String
  model : String
  status_code : Nat
  latency_ms : Rat
  request_id : Option String

/-- An inbound canonical message dict `{"role": .., "content": ..}`. The
code reads both keys only via `dict.get`, so an absent key is modelled by
`.null` (Python's `dict.get` returns `None` for both). -/
structure Msg where
  role : JVal := .null
  content : JVal := .null

/-- The mutable per-adapter state: `model`, `api_key`, `_config`,
`_system_prompt` (`BaseProvider.__init__`). -/
structure ProvState where
  model : String
  apiKey : String := ""
  config : PyDict := []
  systemPrompt : Option String := none

/-- The three vendor adapters. -/
inductive Prov where
  | openai
  | anthropic
  | gemini
deriving DecidableEq, Repr

/-- `BaseProvider.name` per adapter. -/
def provName : Prov → String
  | .openai => "openai"
  | .anthropic => "anthropic"
  | .gemini => "gemini"

/-- `BaseProvider.display_name` per adapter. -/
def provDisplayName : Prov → String
  | .openai => "OpenAI"
  | .anthropic => "Anthropic"
  | .gemini => "Gemini"

/-- `BaseProvider.env_key_name` per adapter. -/
def provEnvKeyName : Prov → String
  | .openai => "OPENAI_API_KEY"
  | .anthropic => "ANTHROPIC_API_KEY"
  | .gemini => "GEMINI_API_KEY"

/-! ## Shared base behaviour (src/unifiedllm/providers/base.py) -/

/-- `BaseProvider.load_env_api_key`: read the vendor environment variable. -/
def load_env_api_key (env : String → Option String) (p : Prov) : Option String :=
  env (provEnvKeyName p)

/-- The credential resolution step of `BaseProvider.__init__`:
an explicit key wins, the sentinel `"default"` reads the environment. -/
def resolve_api_key (p : Prov) (apiKey : String) (env : String → Option String) :
    Option String :=
  if apiKey = "default" then load_env_api_key env p else some apiKey

/-- `BaseProvider.__init__` (the credential part): resolves the key and
fails with `MissingAPIKeyError` when the result is falsy (absent or
empty).  No transport is available to this function: construction cannot
touch the network. -/
def provInit (p : Prov) (model : String) (apiKey : String)
    (env : String → Option String) : Except PErr ProvState :=
  let key := resolve_api_key p apiKey env
  if optStrTruthy key then
    .ok { model := model, apiKey := key.getD "" }
  else
    .error (.missingKey (provName p) (provDisplayName p) model
      ("Set the " ++ provEnvKeyName p ++
       " environment variable or pass api_key explicitly."))

/-- `BaseProvider._get_response`: maps a transport outcome to a provider
error or to a validated JSON-object `HTTPResp`. `extractErr` is the
adapter's `_extract_error_details` hook. -/
def get_response (provider displayName model : String)
    (extractErr : RawResp → APIErrorDetails) :
    TransportResult → Except PErr HTTPResp
  | .timeout => .error (.providerHTTP provider displayName model)
  | .network => .error (.providerHTTP provider displayName model)
  | .statusErr resp =>
      let d := extractErr resp
      .error (.providerAPI provider displayName model resp.status_code
        d.error_type d.code d.request_id d.message d.raw)
  | .ok resp latency =>
      match resp.jsonBody with
      | none =>
          .error (.providerParse provider displayName model
            (some resp.status_code) "Response was not valid JSON."
            (.str resp.text)
            (.str "Try again. If this persists, the provider may be having an outage."))
      | some data =>
          match data with
          | .obj fields =>
              .ok { data := fields, status_code := resp.status_code,
                    latency_ms := latency, headers := resp.headers }
          | v =>
              .error (.providerParse provider displayName model
                (some resp.status_code) "Unexpected JSON shape (expected object)."
                v (.str "Try again. If this persists, report the raw response."))

/-! ## Message conversion (shared shape of the three `_convert_messages`) -/

/-- `(m.get("role") or "").strip().lower()`: the normalized role, or an
`AttributeError` when the (truthy) role value is not a string. -/
def roleOf (m : Msg) : Except PErr String :=
  match pyOr m.role (.str "") with
  | .str s => .ok (strLower (strStrip s))
  | _ => .error (.attributeError "strip")

/-- `str(m.get("content") or "")`. -/
def contentOf (m : Msg) : String :=
  pyStr (pyOr m.content (.str ""))

/-- The exact `ValueError` message raised for a role outside
`{"user", "model"}`. -/
def unsupportedRoleMsg (role : String) : String :=
  "Unsupported role '" ++ role ++ "'. Use 'user' or 'model'."

/-- Does the message carry a role the adapters accept? -/
def roleOk (m : Msg) : Bool :=
  match roleOf m with
  | .ok r => r = "user" || r = "model"
  | .error _ => false

/-- `OpenAIProvider._convert_messages`. -/
def openai_convert_messages : List Msg → Except PErr (List JVal)
  | [] => .ok []
  | m :: rest =>
      match roleOf m with
      | .error e => .error e
      | .ok role =>
          if role = "user" || role = "model" then
            match openai_convert_messages rest with
            | .error e => .error e
            | .ok rest' =>
                .ok (.obj [("role", .str (if role = "user" then "user" else "assistant")),
                           ("content", .str (contentOf m))] :: rest')
          else
            .error (.valueError (unsupportedRoleMsg role))

/-- `AnthropicProvider._convert_messages` (textually identical to the
OpenAI one in the source). -/
def anthropic_convert_messages : List Msg → Except PErr (List JVal)
  | [] => .ok []
  | m :: rest =>
      match roleOf m with
      | .error e => .error e
      | .ok role =>
          if role = "user" || role = "model" then
            match anthropic_convert_messages rest with
            | .error e => .error e
            | .ok rest' =>
                .ok (.obj [("role", .str (if role = "user" then "user" else "assistant")),
                           ("content", .str (contentOf m))] :: rest')
          else
            .error (.valueError (unsupportedRoleMsg role))

/-- `GeminiProvider._convert_messages`: keeps the canonical role and wraps
the content in `parts`. -/
def gemini_convert_messages : List Msg → Except PErr (List JVal)
  | [] => .ok []
  | m :: rest =>
      match roleOf m with
      | .error e => .error e
      | .ok role =>
          if role = "user" || role = "model" then
            match gemini_convert_messages rest with
            | .error e => .error e
            | .ok rest' =>
                .ok (.obj [("role", .str role),
                           ("parts", .arr [.obj [("text", .str (contentOf m))]])] :: rest')
          else
            .error (.valueError (unsupportedRoleMsg role))

/-- Dispatch `_convert_messages` over the adapter. -/
def convert_messages : Prov → List Msg → Except PErr (List JVal)
  | .openai => openai_convert_messages
  | .anthropic => anthropic_convert_messages
  | .gemini => gemini_convert_messages

/-! ## Configuration (the three `config` methods) -/

/-- The canonical keyword arguments of `config(...)`; `none` = the Python
default `None` (argument not supplied). `custom` is `None` or a dict. -/
structure CfgOpts where
  temperature : Option JVal := none
  top_p : Option JVal := none
  max_tokens : Option JVal := none
  stop : Option JVal := none
  custom : Option PyDict := none

/-- `OpenAIProvider.SUPPORTED_CUSTOM_KEYS`. -/
def openai_supported_custom_keys : List String :=
  ["presence_penalty", "frequency_penalty", "logit_bias", "seed", "n",
   "user", "store", "service_tier", "response_format",
   "max_completion_tokens"]

/-- `AnthropicProvider.SUPPORTED_CUSTOM_KEYS`. -/
def anthropic_supported_custom_keys : List String :=
  ["top_k", "stop_sequences", "metadata", "stream", "user_id"]

/-- `GeminiProvider.SUPPORTED_CUSTOM_KEYS`. -/
def gemini_supported_custom_keys : List String :=
  ["topK", "candidateCount"]

/-- The `cfg` dict a `config(...)` call builds before merging it into
`self._config`, given the vendor key names for the four canonical options. -/
def canonical_cfg (tempKey topPKey maxTokKey stopKey : String) (o : CfgOpts) :
    PyDict :=
  let cfg : PyDict := []
  let cfg := match o.temperature with
    | some v => dset cfg tempKey v
    | none => cfg
  let cfg := match o.top_p with
    | some v => dset cfg topPKey v
    | none => cfg
  let cfg := match o.max_tokens with
    | some v => dset cfg maxTokKey v
    | none => cfg
  match o.stop with
  | some v => dset cfg stopKey v
  | none => cfg

/-- The custom keys of `o` that are outside the adapter's allow-list
(`set(custom) - SUPPORTED_CUSTOM_KEYS`). -/
def unknown_custom_keys (supported : List String) (c : PyDict) : List String :=
  (c.map Prod.fst).filter (fun k => !supported.contains k)

/-- The generic body shared by the three `config` methods: build `cfg`,
validate `custom` against the allow-list, merge `custom` into `cfg`, then
`self._config.update(cfg)`. -/
def run_config (vendor : String) (supported : List String)
    (tempKey topPKey maxTokKey stopKey : String)
    (st : PyDict) (o : CfgOpts) : Except PErr PyDict :=
  let cfg := canonical_cfg tempKey topPKey maxTokKey stopKey o
  match o.custom with
  | none => .ok (dupdate st cfg)
  | some c =>
      let unknown := unknown_custom_keys supported c
      if unknown.isEmpty then
        .ok (dupdate st (dupdate cfg c))
      else
        .error (.valueError ("Unsupported " ++ vendor ++ " custom parameters: " ++
          String.intercalate ", " unknown))

/-- `OpenAIProvider.config`. -/
def openai_config : PyDict → CfgOpts → Except PErr PyDict :=
  run_config "OpenAI" openai_supported_custom_keys
    "temperature" "top_p" "max_tokens" "stop"

/-- `AnthropicProvider.config` (canonical `stop` maps to vendor
`stop_sequences`). -/
def anthropic_config : PyDict → CfgOpts → Except PErr PyDict :=
  run_config "Anthropic" anthropic_supported_custom_keys
    "temperature" "top_p" "max_tokens" "stop_sequences"

/-- `GeminiProvider.config` (vendor names `topP`, `maxOutputTokens`,
`stopSequences`). -/
def gemini_config : PyDict → CfgOpts → Except PErr PyDict :=
  run_config "Gemini" gemini_supported_custom_keys
    "temperature" "topP" "maxOutputTokens" "stopSequences"

/-- Dispatch `config` over the adapter. -/
def config_of : Prov → PyDict → CfgOpts → Except PErr PyDict
  | .openai => openai_config
  | .anthropic => anthropic_config
  | .gemini => gemini_config

/-- The `cfg` dict (custom merged in) a successful `config` call merges
into the stored configuration. -/
def cfg_of (p : Prov) (o : CfgOpts) : PyDict :=
  let base := match p with
    | .openai => canonical_cfg "temperature" "top_p" "max_tokens" "stop" o
    | .anthropic => canonical_cfg "temperature" "top_p" "max_tokens" "stop_sequences" o
    | .gemini => canonical_cfg "temperature" "topP" "maxOutputTokens" "stopSequences" o
  match o.custom with
  | none => base
  | some c => dupdate base c

/-! ## Response field extraction -/

/-- `OpenAIProvider._extract_text`: requires `choices` to be a list, reads
`choices[0].message.content`, tolerating any malformed inner shape. -/
def openai_extract_text (model : String) (data : PyDict) : Except PErr String :=
  match pyGet data "choices" with
  | .arr choices =>
      match choices with
      | [] => .ok ""
      | c0 :: _ =>
          let msg := match c0 with
            | .obj o => pyGet o "message"
            | _ => .null
          let content := match msg with
            | .obj o => pyGet o "content"
            | _ => .null
          .ok (match content with
            | .str s => s
            | _ => "")
  | v =>
      .error (.providerParse "openai" "OpenAI" model none
        ("Unexpected response shape: 'choices' " ++
         (match v with | .null => "missing" | _ => "not a list") ++ ".")
        (.obj data) .null)

/-- The loop body of `AnthropicProvider._extract_text`: the fragment a
content block contributes (`b.get("type") == "text"` and a string
`b.get("text")`), if any. -/
def anthropic_text_fragment : JVal → Option String
  | .obj o =>
      match pyGet o "type" with
      | .str ty =>
          if ty = "text" then
            match pyGet o "text" with
            | .str t => some t
            | _ => none
          else none
      | _ => none
  | _ => none

/-- `AnthropicProvider._extract_text`: requires `content` to be a list and
concatenates the `text` of the blocks whose `type` is `"text"`. -/
def anthropic_extract_text (model : String) (data : PyDict) : Except PErr String :=
  match pyGet data "content" with
  | .arr blocks =>
      if blocks.isEmpty then .ok ""
      else
        .ok (String.join (blocks.filterMap anthropic_text_fragment))
  | _ =>
      .error (.providerParse "anthropic" "Anthropic" model none
        "Unexpected response shape: 'content' missing or not a list."
        (.obj data) .null)

/-- `GeminiProvider._extract_text`: an absent (or `null`) `candidates`
field reads as no text; a present non-list `candidates` is a parse error;
otherwise the `text` parts of the first candidate are concatenated. -/
def gemini_extract_text (model : String) (data : PyDict) : Except PErr String :=
  match pyGet data "candidates" with
  | .null => .ok ""
  | .arr candidates =>
      match candidates with
      | [] => .ok ""
      | c0 :: _ =>
          match c0 with
          | .obj o =>
              match pyGet o "content" with
              | .obj co =>
                  match pyGet co "parts" with
                  | .arr parts =>
                      .ok (String.join (parts.filterMap fun part =>
                        match part with
                        | .obj po =>
                            match pyGet po "text" with
                            | .str t => some t
                            | _ => none
                        | _ => none))
                  | _ => .ok ""
              | _ => .ok ""
          | _ => .ok ""
  | _ =>
      .error (.providerParse "gemini" "Gemini" model none
        "Unexpected response shape: 'candidates' missing or not a list."
        (.obj data) .null)

/-- Dispatch `_extract_text` over the adapter. -/
def extract_text : Prov → String → PyDict → Except PErr String
  | .openai => openai_extract_text
  | .anthropic => anthropic_extract_text
  | .gemini => gemini_extract_text

/-- `OpenAIProvider._extract_usage`: pass-through of the `usage` fields. -/
def openai_extract_usage (data : PyDict) : Option LLMUsage :=
  match pyGet data "usage" with
  | .obj u =>
      some { prompt_tokens := pyGet u "prompt_tokens",
             completion_tokens := pyGet u "completion_tokens",
             total_tokens := pyGet u "total_tokens" }
  | _ => none

/-- `AnthropicProvider._extract_usage`: reads `input_tokens` and
`output_tokens` and computes the total only when both are `int`s. -/
def anthropic_extract_usage (data : PyDict) : Option LLMUsage :=
  match pyGet data "usage" with
  | .obj u =>
      let prompt_tokens := pyGet u "input_tokens"
      let completion_tokens := pyGet u "output_tokens"
      let total_tokens := match prompt_tokens, completion_tokens with
        | .int a, .int b => .int (a + b)
        | _, _ => JVal.null
      some { prompt_tokens := prompt_tokens,
             completion_tokens := completion_tokens,
             total_tokens := total_tokens }
  | _ => none

/-- `GeminiProvider._extract_usage`: pass-through of `usageMetadata`. -/
def gemini_extract_usage (data : PyDict) : Option LLMUsage :=
  match pyGet data "usageMetadata" with
  | .obj u =>
      some { prompt_tokens := pyGet u "promptTokenCount",
             completion_tokens := pyGet u "candidatesTokenCount",
             total_tokens := pyGet u "totalTokenCount" }
  | _ => none

/-- Dispatch `_extract_usage` over the adapter. -/
def extract_usage : Prov → PyDict → Option LLMUsage
  | .openai => openai_extract_usage
  | .anthropic => anthropic_extract_usage
  | .gemini => gemini_extract_usage

/-- The key under which each adapter's vendor payload carries usage. -/
def usage_key : Prov → String
  | .openai => "usage"
  | .anthropic => "usage"
  | .gemini => "usageMetadata"

/-- `OpenAIProvider._extract_request_id` (headers, `x-request-id` first). -/
def openai_extract_request_id (hr : HTTPResp) : Option String :=
  let rid := pyOrStr (hget hr.headers "x-request-id") (hget hr.headers "request-id")
  match rid with
  | some s => if s = "" then none else some s.trim
  | none => none

/-- `AnthropicProvider._extract_request_id` (headers, `request-id` first). -/
def anthropic_extract_request_id (hr : HTTPResp) : Option String :=
  let rid := pyOrStr (hget hr.headers "request-id") (hget hr.headers "x-request-id")
  match rid with
  | some s => if s = "" then none else some s.trim
  | none => none

/-- `GeminiProvider._extract_request_id` (body `responseId`). -/
def gemini_extract_request_id (hr : HTTPResp) : Option String :=
  match pyGet hr.data "responseId" with
  | .str s => if s.trim = "" then none else some s.trim
  | _ => none

/-- Dispatch `_extract_request_id` over the adapter. -/
def extract_request_id : Prov → HTTPResp → Option String
  | .openai => openai_extract_request_id
  | .anthropic => anthropic_extract_request_id
  | .gemini => gemini_extract_request_id

/-! ## Error-detail extraction (the three `_extract_error_details`) -/

/-- `OpenAIProvider._extract_error_details`. -/
def openai_extract_error_details (resp : RawResp) : APIErrorDetails :=
  let request_id := pyOrStr (hget resp.headers "x-request-id")
    (hget resp.headers "request-id")
  match resp.jsonBody with
  | none =>
      { message := .str resp.text, raw := .str resp.text,
        request_id := request_id }
  | some payload =>
      match payload with
      | .obj fields =>
          match pyGet fields "error" with
          | .obj err =>
              { message := pyOr (pyGet err "message") (.str resp.text),
                error_type := pyGet err "type",
                code := pyGet err "code",
                raw := payload, request_id := request_id }
          | _ =>
              { message := pyGet fields "message",
                raw := payload, request_id := request_id }
      | _ =>
          { message := .str resp.text, raw := payload,
            request_id := request_id }

/-- `AnthropicProvider._extract_error_details` (prefers a header request
id, falls back to a body `request_id` string). -/
def anthropic_extract_error_details (resp : RawResp) : APIErrorDetails :=
  let request_id := pyOrStr (hget resp.headers "request-id")
    (hget resp.headers "x-request-id")
  match resp.jsonBody with
  | none =>
      { message := .str resp.text, raw := .str resp.text,
        request_id := request_id }
  | some payload =>
      match payload with
      | .obj fields =>
          let request_id := match pyGet fields "request_id" with
            | .str s => if optStrTruthy request_id then request_id else some s
            | _ => request_id
          match pyGet fields "error" with
          | .obj err =>
              { message := pyOr (pyGet err "message") (.str resp.text),
                error_type := pyGet err "type",
                raw := payload, request_id := request_id }
          | _ =>
              { message := match pyGet fields "message" with
                  | .str s => .str s
                  | _ => .str resp.text,
                raw := payload, request_id := request_id }
      | _ =>
          { message := .str resp.text, raw := payload,
            request_id := request_id }

/-- `GeminiProvider._extract_error_details` (Google error envelope with
`status` and an integer `code`). -/
def gemini_extract_error_details (resp : RawResp) : APIErrorDetails :=
  let request_id := pyOrStr (hget resp.headers "x-goog-request-id")
    (pyOrStr (hget resp.headers "x-request-id") (hget resp.headers "request-id"))
  match resp.jsonBody with
  | none =>
      { message := .str resp.text, raw := .str resp.text,
        request_id := request_id }
  | some payload =>
      match payload with
      | .obj fields =>
          match pyGet fields "error" with
          | .obj err =>
              let msg := pyOr (pyGet err "message") (.str resp.text)
              let status := pyGet err "status"
              let code := pyGet err "code"
              { message := match msg with
                  | .str s => .str s
                  | _ => .str resp.text,
                error_type := match status with
                  | .str s => .str s
                  | _ => .null,
                code := match code with
                  | .null => .null
                  | c => .str (pyStr c),
                raw := payload, request_id := request_id }
          | _ =>
              { message := match pyGet fields "message" with
                  | .str s => .str s
                  | _ => .str resp.text,
                raw := payload, request_id := request_id }
      | _ =>
          { message := .str resp.text, raw := payload,
            request_id := request_id }

/-- Dispatch `_extract_error_details` over the adapter. -/
def extract_error_details : Prov → RawResp → APIErrorDetails
  | .openai => openai_extract_error_details
  | .anthropic => anthropic_extract_error_details
  | .gemini => gemini_extract_error_details

/-! ## Outbound payload construction and the chat entry points -/

/-- The payload `OpenAIProvider.chat` posts: a system prompt becomes a
leading `system` message; `self._config`, when non-empty, is merged into
the payload at top level. -/
def openai_build_payload (model : String) (config : PyDict)
    (systemPrompt : Option String) (msgs : List JVal) : PyDict :=
  let msgs := match systemPrompt with
    | some t => JVal.obj [("role", .str "system"), ("content", .str t)] :: msgs
    | none => msgs
  let payload : PyDict := [("model", .str model), ("messages", .arr msgs)]
  if config.isEmpty then payload else dupdate payload config

/-- The payload `AnthropicProvider.chat` posts: the stored config with
`max_tokens` defaulted to `DEFAULT_MAX_TOKENS = 1024` is spliced into the
payload; a system prompt becomes the top-level `system` field. -/
def anthropic_build_payload (model : String) (config : PyDict)
    (systemPrompt : Option String) (msgs : List JVal) : PyDict :=
  let cfg := dsetdefault config "max_tokens" (.int 1024)
  let payload := dupdate [("model", .str model), ("messages", .arr msgs)] cfg
  match systemPrompt with
  | some t => dset payload "system" (.str t)
  | none => payload

/-- The payload `GeminiProvider.chat` posts: `contents`, an optional
`systemInstruction`, and the stored config under `generationConfig` when
non-empty. -/
def gemini_build_payload (config : PyDict) (systemPrompt : Option String)
    (msgs : List JVal) : PyDict :=
  let payload : PyDict := [("contents", .arr msgs)]
  let payload := match systemPrompt with
    | some t =>
        dset payload "systemInstruction"
          (.obj [("parts", .arr [.obj [("text", .str t)]])])
    | none => payload
  if config.isEmpty then payload else dset payload "generationConfig" (.obj config)

/-- `BaseProvider._parse_chat_response`, specialised by the adapter's
extraction hooks. -/
def parse_chat_response (p : Prov) (model : String) (hr : HTTPResp) :
    Except PErr ChatResp := do
  let text ← extract_text p model hr.data
  .ok { text := text, raw := hr.data, usage := extract_usage p hr.data,
        provider := provName p, model := model,
        status_code := hr.status_code, latency_ms := hr.latency_ms,
        request_id := extract_request_id p hr }

/-- The outbound payload a `chat` call builds from the adapter state and
the already-converted messages. -/
def build_payload (p : Prov) (st : ProvState) (msgs : List JVal) : PyDict :=
  match p with
  | .openai => openai_build_payload st.model st.config st.systemPrompt msgs
  | .anthropic => anthropic_build_payload st.model st.config st.systemPrompt msgs
  | .gemini => gemini_build_payload st.config st.systemPrompt msgs

/-- The `chat` entry point of each adapter. `tr` is the transport oracle
(the one `HTTPClient.post` call). Besides the result, the list of
payloads actually posted is returned: message conversion happens first,
and a conversion failure means the transport is never invoked. -/
def chat (p : Prov) (st : ProvState) (ms : List Msg)
    (tr : JVal → TransportResult) : Except PErr ChatResp × List JVal :=
  match convert_messages p ms with
  | .error e => (.error e, [])
  | .ok msgs =>
      let payload := JVal.obj (build_payload p st msgs)
      match get_response (provName p) (provDisplayName p) st.model
          (extract_error_details p) (tr payload) with
      | .error e => (.error e, [payload])
      | .ok hr => (parse_chat_response p st.model hr, [payload])

/-! ## Lemmas about the dict model -/

theorem dget_dset (d : PyDict) (k0 k : String) (v : JVal) :
    dget (dset d k0 v) k = if k0 = k then some v else dget d k := by
  induction d with
  | nil => simp [dset, dget]
  | cons e rest ih =>
      obtain ⟨k', v'⟩ := e
      by_cases h0 : k' = k0
      · subst h0
        by_cases h1 : k' = k <;> simp [dset, dget, h1]
      · by_cases h1 : k' = k
        · subst h1
          have : ¬ k0 = k' := fun h => h0 h.symm
          simp [dset, dget, h0, this]
        · simp [dset, dget, h0, h1, ih]

theorem dget_append (d1 d2 : PyDict) (k : String) :
    dget (d1 ++ d2) k = (dget d1 k).or (dget d2 k) := by
  induction d1 with
  | nil => simp [dget]
  | cons e rest ih =>
      by_cases h : e.1 = k <;> simp [dget, h, ih]

theorem dlast_cons (k0 : String) (v0 : JVal) (rest : PyDict) (k : String) :
    dlast ((k0, v0) :: rest) k =
      (dlast rest k).or (if k0 = k then some v0 else none) := by
  simp only [dlast, List.reverse_cons, dget_append]
  by_cases h : k0 = k <;> simp [dget, h]

theorem dget_dupdate (cfg : PyDict) (d : PyDict) (k : String) :
    dget (dupdate d cfg) k = (dlast cfg k).or (dget d k) := by
  induction cfg generalizing d with
  | nil => simp [dupdate, dlast, dget]
  | cons e rest ih =>
      obtain ⟨k0, v0⟩ := e
      have hstep : dupdate d ((k0, v0) :: rest) = dupdate (dset d k0 v0) rest := rfl
      rw [hstep, ih, dlast_cons, dget_dset]
      by_cases h : k0 = k <;> cases hrest : dlast rest k <;> simp [h]

theorem dlast_eq_none_iff (d : PyDict) (k : String) :
    dlast d k = none ↔ dget d k = none := by
  induction d with
  | nil => simp [dlast, dget]
  | cons e rest ih =>
      obtain ⟨k0, v0⟩ := e
      rw [dlast_cons]
      by_cases h : k0 = k <;>
        cases hrest : dlast rest k <;>
          simp_all [dget, h, Option.or]

theorem dlast_eq_dget_of_nodup (d : PyDict) (k : String)
    (h : dnodup d = true) : dlast d k = dget d k := by
  induction d with
  | nil => rfl
  | cons e rest ih =>
      obtain ⟨k0, v0⟩ := e
      simp only [dnodup, Bool.and_eq_true, Option.isNone_iff_eq_none] at h
      obtain ⟨hnone, hrest⟩ := h
      rw [dlast_cons, ih hrest]
      by_cases hk : k0 = k
      · subst hk
        simp [dget, hnone]
      · simp [dget, hk]

theorem dnodup_dset (d : PyDict) (k : String) (v : JVal)
    (h : dnodup d = true) : dnodup (dset d k v) = true := by
  induction d with
  | nil => simp [dset, dnodup, dget]
  | cons e rest ih =>
      obtain ⟨k0, v0⟩ := e
      simp only [dnodup, Bool.and_eq_true, Option.isNone_iff_eq_none] at h
      obtain ⟨hnone, hrest⟩ := h
      by_cases hk : k0 = k
      · subst hk
        simp [dset, dnodup, hnone, hrest]
      · have hne : ¬ k = k0 := fun hh => hk hh.symm
        simp [dset, hk, dnodup, dget_dset, hne, hnone, ih hrest]

theorem dget_eq_none_of_not_mem_keys (d : PyDict) (k : String)
    (h : k ∉ d.map Prod.fst) : dget d k = none := by
  induction d with
  | nil => rfl
  | cons e rest ih =>
      simp only [List.map_cons, List.mem_cons, not_or] at h
      have hne : ¬ e.1 = k := fun hh => h.1 hh.symm
      simpa [dget, hne] using ih h.2

theorem dlast_eq_none_of_not_mem_keys (d : PyDict) (k : String)
    (h : k ∉ d.map Prod.fst) : dlast d k = none := by
  rw [dlast_eq_none_iff]
  exact dget_eq_none_of_not_mem_keys d k h

/-- A successful `config` call merges exactly `cfg_of p o` into the stored
configuration (the shape all three `config` methods share). -/
theorem run_config_ok (vendor : String) (supported : List String)
    (t tp mt sk : String) (st st' : PyDict) (o : CfgOpts)
    (h : run_config vendor supported t tp mt sk st o = .ok st') :
    st' = dupdate st (match o.custom with
      | none => canonical_cfg t tp mt sk o
      | some c => dupdate (canonical_cfg t tp mt sk o) c) := by
  unfold run_config at h
  cases hc : o.custom with
  | none => rw [hc] at h; simpa using h.symm
  | some c =>
      rw [hc] at h
      simp only at h
      split at h
      · simpa using h.symm
      · exact absurd h (by simp)

/-- `config_of p` succeeds exactly by merging `cfg_of p o`. -/
theorem config_of_ok (p : Prov) (st st' : PyDict) (o : CfgOpts)
    (h : config_of p st o = .ok st') : st' = dupdate st (cfg_of p o) := by
  cases p <;>
    · have h2 := run_config_ok _ _ _ _ _ _ st st' o h
      rw [h2]
      unfold cfg_of
      cases o.custom <;> rfl

/-! ## Claim C1: shape contract of `_extract_text` -/

/-- C1, counterexample. The claim requires every adapter to raise
`ParseError` when its text-bearing field is absent; the Gemini adapter
instead returns the empty string when `candidates` is absent (the body
`{"responseId": ...}` with no `candidates` key), as its own test
`test_success_with_missing_candidates` expects. -/
theorem C1_counterexample :
    gemini_extract_text "gemini-pro" [] = .ok "" := rfl

/-- C1 (amended): for the OpenAI adapter (`choices`) and the Anthropic
adapter (`content`), a 2xx JSON-object body whose field is absent or not a
list makes `_extract_text` raise `ParseError`, and a present-but-empty
list yields the empty string with no error; for the Gemini adapter a
present non-list `candidates` raises `ParseError`, while an absent/null
`candidates` — like an empty list — yields the empty string with no
error. -/
theorem C1_extract_text_shape (model : String) (d : PyDict) :
    ((pyGet d "choices").isArr = false →
      isParseErr (openai_extract_text model d) = true) ∧
    (pyGet d "choices" = .arr [] → openai_extract_text model d = .ok "") ∧
    ((pyGet d "content").isArr = false →
      isParseErr (anthropic_extract_text model d) = true) ∧
    (pyGet d "content" = .arr [] → anthropic_extract_text model d = .ok "") ∧
    (pyGet d "candidates" = .null → gemini_extract_text model d = .ok "") ∧
    (pyGet d "candidates" ≠ .null → (pyGet d "candidates").isArr = false →
      isParseErr (gemini_extract_text model d) = true) ∧
    (pyGet d "candidates" = .arr [] → gemini_extract_text model d = .ok "") := by
  refine ⟨?_, ?_, ?_, ?_, ?_, ?_, ?_⟩
  · intro h
    cases hv : pyGet d "choices" <;>
      simp_all [openai_extract_text, isParseErr, JVal.isArr]
  · intro h
    simp [openai_extract_text, h]
  · intro h
    cases hv : pyGet d "content" <;>
      simp_all [anthropic_extract_text, isParseErr, JVal.isArr]
  · intro h
    simp [anthropic_extract_text, h]
  · intro h
    simp [gemini_extract_text, h]
  · intro h1 h2
    cases hv : pyGet d "candidates" <;>
      simp_all [gemini_extract_text, isParseErr, JVal.isArr]
  · intro h
    simp [gemini_extract_text, h]

/-- C1, witness: the Gemini `{"candidates": []}` scenario yields the empty
string, and an OpenAI body whose `choices` is not a list is a
`ParseError`. -/
theorem C1_witness :
    gemini_extract_text "gemini-pro" [("candidates", JVal.arr [])] = .ok "" ∧
    isParseErr (openai_extract_text "gpt-4" [("choices", JVal.int 0)]) = true :=
  ⟨(C1_extract_text_shape "gemini-pro" [("candidates", JVal.arr [])]).2.2.2.2.2.2 rfl,
   (C1_extract_text_shape "gpt-4" [("choices", JVal.int 0)]).1 rfl⟩

/-! ## Claim C9: Anthropic text concatenation -/

/-- Claim-side notion: a content block of text modality (its `type` is
`"text"`). -/
def isTextBlock : JVal → Bool
  | .obj o =>
      match pyGet o "type" with
      | .str ty => ty = "text"
      | _ => false
  | _ => false

/-- Claim-side notion: the `text` value of a block (empty when absent or
not a string; the well-formedness hypothesis rules that case out). -/
def blockText : JVal → String
  | .obj o =>
      match pyGet o "text" with
      | .str t => t
      | _ => ""
  | _ => ""

/-- Claim-side notion: the in-order concatenation of the `text` values of
the blocks whose `type` is `"text"`. -/
def textConcat (blocks : List JVal) : String :=
  String.join ((blocks.filter isTextBlock).map blockText)

/-- Every text-modality block carries a string `text` value. -/
def textBlocksWellFormed (blocks : List JVal) : Bool :=
  blocks.all fun b =>
    !isTextBlock b ||
      (match b with
       | .obj o => (pyGet o "text").isStr
       | _ => false)

theorem anthropic_text_fragment_eq_none (b : JVal)
    (h : isTextBlock b = false) : anthropic_text_fragment b = none := by
  cases b <;> simp_all [isTextBlock, anthropic_text_fragment]
  case obj o =>
    cases hty : pyGet o "type" <;> simp_all

theorem anthropic_fragments_eq_textlist (blocks : List JVal)
    (hwf : textBlocksWellFormed blocks = true) :
    blocks.filterMap anthropic_text_fragment =
      (blocks.filter isTextBlock).map blockText := by
  induction blocks with
  | nil => rfl
  | cons b rest ih =>
      simp only [textBlocksWellFormed, List.all_cons, Bool.and_eq_true] at hwf
      obtain ⟨hb, hrest⟩ := hwf
      have ih' : rest.filterMap anthropic_text_fragment =
          (rest.filter isTextBlock).map blockText := by
        apply ih
        simpa [textBlocksWellFormed] using hrest
      cases ht : isTextBlock b with
      | false =>
          simp [List.filterMap_cons, List.filter_cons,
            anthropic_text_fragment_eq_none b ht, ht, ih']
      | true =>
          cases b with
          | obj o =>
              rw [ht] at hb
              simp only [Bool.not_true, Bool.false_or] at hb
              have hty := ht
              simp only [isTextBlock] at hty
              cases htyv : pyGet o "type" with
              | str ty =>
                  rw [htyv] at hty
                  simp only [decide_eq_true_eq] at hty
                  cases htx : pyGet o "text" with
                  | str t =>
                      simp [List.filterMap_cons, List.filter_cons,
                        anthropic_text_fragment, isTextBlock, blockText,
                        htyv, htx, hty, ht, ih']
                  | _ =>
                      rw [htx] at hb
                      simp [JVal.isStr] at hb
              | _ => rw [htyv] at hty; simp at hty
          | _ => simp [isTextBlock] at ht

/-- C9: for the Anthropic adapter, when the body's `content` is a list of
blocks each of whose text-modality blocks carries a string `text` value,
the extracted text is the in-order concatenation of the `text` values of
all blocks whose `type` is `"text"`, skipping blocks of other
modalities. -/
theorem C9_anthropic_text_concat (model : String) (d : PyDict)
    (blocks : List JVal)
    (hd : pyGet d "content" = .arr blocks)
    (hwf : textBlocksWellFormed blocks = true) :
    anthropic_extract_text model d = .ok (textConcat blocks) := by
  unfold anthropic_extract_text
  rw [hd]
  cases blocks with
  | nil => rfl
  | cons b rest =>
      simp only [List.isEmpty_cons, Bool.false_eq_true, if_false]
      rw [anthropic_fragments_eq_textlist _ hwf]
      simp [textConcat]

/-- C9, witness: the claim's scenario
`{"content":[{"type":"text","text":"A"},{"type":"text","text":"B"}]}`
yields `text == "AB"`. -/
theorem C9_witness :
    anthropic_extract_text "claude-3"
      [("content", JVal.arr
        [.obj [("type", .str "text"), ("text", .str "A")],
         .obj [("type", .str "text"), ("text", .str "B")]])] = .ok "AB" :=
  (C9_anthropic_text_concat "claude-3"
    [("content", JVal.arr
      [.obj [("type", .str "text"), ("text", .str "A")],
       .obj [("type", .str "text"), ("text", .str "B")]])]
    [.obj [("type", .str "text"), ("text", .str "A")],
     .obj [("type", .str "text"), ("text", .str "B")]]
    rfl rfl).trans rfl

/-! ## Claim C4: usage extraction -/

/-- C4, counterexample. An OpenAI usage object with integer partial
counts but no vendor-reported total: the claim demands a computed total
(here 15), but the OpenAI adapter passes the fields through and leaves
the total absent. -/
theorem C4_counterexample :
    openai_extract_usage
      [("usage", JVal.obj [("prompt_tokens", .int 10),
                           ("completion_tokens", .int 5)])] =
    some { prompt_tokens := JVal.int 10, completion_tokens := JVal.int 5,
           total_tokens := JVal.null } := rfl

/-- C4 (amended): for every adapter `_extract_usage` returns `none` (not a
zero-filled record) when the vendor payload's usage object is absent or
not an object. Only the Anthropic adapter computes a total: prompt plus
completion when both are integers, otherwise the total is left absent.
The OpenAI and Gemini adapters pass the vendor-reported fields through
unchanged, so their total is absent exactly when the vendor omits it. -/
theorem C4_extract_usage (d : PyDict) (u : PyDict) :
    (∀ p : Prov, (pyGet d (usage_key p)).isObj = false →
      extract_usage p d = none) ∧
    (pyGet d "usage" = .obj u →
      openai_extract_usage d =
        some { prompt_tokens := pyGet u "prompt_tokens",
               completion_tokens := pyGet u "completion_tokens",
               total_tokens := pyGet u "total_tokens" }) ∧
    (∀ a b : Int, pyGet d "usage" = .obj u →
      pyGet u "input_tokens" = .int a → pyGet u "output_tokens" = .int b →
      anthropic_extract_usage d =
        some { prompt_tokens := .int a, completion_tokens := .int b,
               total_tokens := .int (a + b) }) ∧
    (pyGet d "usage" = .obj u →
      ((pyGet u "input_tokens").isInt && (pyGet u "output_tokens").isInt) = false →
      anthropic_extract_usage d =
        some { prompt_tokens := pyGet u "input_tokens",
               completion_tokens := pyGet u "output_tokens",
               total_tokens := .null }) ∧
    (pyGet d "usageMetadata" = .obj u →
      gemini_extract_usage d =
        some { prompt_tokens := pyGet u "promptTokenCount",
               completion_tokens := pyGet u "candidatesTokenCount",
               total_tokens := pyGet u "totalTokenCount" }) := by
  refine ⟨?_, ?_, ?_, ?_, ?_⟩
  · intro p hp
    cases p <;>
      · simp only [extract_usage]
        first
        | (unfold openai_extract_usage
           cases hv : pyGet d "usage" <;> simp_all [JVal.isObj, usage_key])
        | (unfold anthropic_extract_usage
           cases hv : pyGet d "usage" <;> simp_all [JVal.isObj, usage_key])
        | (unfold gemini_extract_usage
           cases hv : pyGet d "usageMetadata" <;> simp_all [JVal.isObj, usage_key])
  · intro h
    simp [openai_extract_usage, h]
  · intro a b h hi ho
    simp [anthropic_extract_usage, h, hi, ho]
  · intro h hio
    unfold anthropic_extract_usage
    rw [h]
    cases hi : pyGet u "input_tokens" <;>
      cases ho : pyGet u "output_tokens" <;>
        simp_all [JVal.isInt]
  · intro h
    simp [gemini_extract_usage, h]

/-- C4, witness: a payload with no usage object at all yields an absent
usage for every adapter (here: Gemini), and the Anthropic adapter
computes `input + output` when both are integers. -/
theorem C4_witness :
    extract_usage .gemini [("candidates", JVal.arr [])] = none ∧
    anthropic_extract_usage
      [("usage", JVal.obj [("input_tokens", .int 12), ("output_tokens", .int 18)])] =
      some { prompt_tokens := JVal.int 12, completion_tokens := JVal.int 18,
             total_tokens := JVal.int 30 } :=
  ⟨(C4_extract_usage [("candidates", JVal.arr [])] []).1 .gemini rfl,
   (C4_extract_usage
      [("usage", JVal.obj [("input_tokens", .int 12), ("output_tokens", .int 18)])]
      [("input_tokens", .int 12), ("output_tokens", .int 18)]).2.2.1
      12 18 rfl rfl rfl⟩

/-! ## Claim C5: non-JSON and non-object 2xx bodies -/

/-- C5: for every adapter, a successful (2xx) transport response whose
body is not valid JSON yields a `ParseError` carrying the raw body text,
and one whose JSON top-level value is not an object yields a `ParseError`
carrying the decoded value; neither crashes nor returns a normalized
response. -/
theorem C5_parse_errors (p : Prov) (model : String) (resp : RawResp)
    (lat : Rat) :
    (resp.jsonBody = none →
      get_response (provName p) (provDisplayName p) model
          (extract_error_details p) (.ok resp lat) =
        .error (.providerParse (provName p) (provDisplayName p) model
          (some resp.status_code) "Response was not valid JSON."
          (.str resp.text)
          (.str "Try again. If this persists, the provider may be having an outage."))) ∧
    (∀ v, resp.jsonBody = some v → v.isObj = false →
      get_response (provName p) (provDisplayName p) model
          (extract_error_details p) (.ok resp lat) =
        .error (.providerParse (provName p) (provDisplayName p) model
          (some resp.status_code) "Unexpected JSON shape (expected object)."
          v (.str "Try again. If this persists, report the raw response."))) := by
  constructor
  · intro h
    simp [get_response, h]
  · intro v h hv
    cases v <;> simp_all [get_response, JVal.isObj]

/-- C5, witness: a 200 body `not json` (undecodable) is a `ParseError`
with the raw text attached, for the Gemini adapter. -/
theorem C5_witness :
    get_response "gemini" "Gemini" "gemini-pro"
        (extract_error_details .gemini)
        (.ok { status_code := 200, text := "not json", jsonBody := none,
               headers := [] } 3) =
      .error (.providerParse "gemini" "Gemini" "gemini-pro" (some 200)
        "Response was not valid JSON." (.str "not json")
        (.str "Try again. If this persists, the provider may be having an outage.")) :=
  (C5_parse_errors .gemini "gemini-pro"
    { status_code := 200, text := "not json", jsonBody := none, headers := [] }
    3).1 rfl

/-! ## Claim C3: APIError on transport status errors -/

/-- C3, counterexample. A 500 whose body decodes to the JSON object `{}`
(no `error` object, no `message` key), raw text `boom`: the claim demands
the error message equal the raw body text, but the OpenAI adapter stores
`payload.get("message")`, i.e. `None`. -/
theorem C3_counterexample :
    get_response "openai" "OpenAI" "gpt-4" openai_extract_error_details
        (.statusErr { status_code := 500, text := "boom",
                      jsonBody := some (.obj []), headers := [] }) =
      .error (.providerAPI "openai" "OpenAI" "gpt-4" 500 .null .null none
        .null (.obj [])) := rfl

/-- C3 (amended): for every adapter a transport status error yields a
`ProviderAPIError` whose status code is the transport response's status
code and whose message is the vendor-extracted one. The message equals
the decoded vendor error message when the error envelope contains one
(a non-empty string under `error.message`), and otherwise the raw body
text — except that the OpenAI adapter, on a JSON-object body without an
`error` object, stores the body's top-level `message` value as-is, which
is absent (`None`) rather than the raw text when that key is missing;
the Anthropic and Gemini adapters fall back to the raw text there. -/
theorem C3_api_error (model : String) (resp : RawResp) :
    (∀ p : Prov,
      get_response (provName p) (provDisplayName p) model
          (extract_error_details p) (.statusErr resp) =
        .error (.providerAPI (provName p) (provDisplayName p) model
          resp.status_code
          (extract_error_details p resp).error_type
          (extract_error_details p resp).code
          (extract_error_details p resp).request_id
          (extract_error_details p resp).message
          (extract_error_details p resp).raw)) ∧
    (resp.jsonBody = none →
      ∀ p : Prov, (extract_error_details p resp).message = .str resp.text) ∧
    (∀ fields err s, resp.jsonBody = some (.obj fields) →
      pyGet fields "error" = .obj err → pyGet err "message" = .str s →
      s ≠ "" →
      ∀ p : Prov, (extract_error_details p resp).message = .str s) ∧
    (∀ fields err, resp.jsonBody = some (.obj fields) →
      pyGet fields "error" = .obj err → pyGet err "message" = .null →
      ∀ p : Prov, (extract_error_details p resp).message = .str resp.text) ∧
    (∀ v, resp.jsonBody = some v → v.isObj = false →
      ∀ p : Prov, (extract_error_details p resp).message = .str resp.text) ∧
    (∀ fields, resp.jsonBody = some (.obj fields) →
      (pyGet fields "error").isObj = false →
      ((extract_error_details .anthropic resp).message =
          (match pyGet fields "message" with
           | .str s => .str s
           | _ => .str resp.text) ∧
       (extract_error_details .gemini resp).message =
          (match pyGet fields "message" with
           | .str s => .str s
           | _ => .str resp.text) ∧
       (extract_error_details .openai resp).message = pyGet fields "message")) := by
  refine ⟨?_, ?_, ?_, ?_, ?_, ?_⟩
  · intro p
    cases p <;> rfl
  · intro h p
    cases p <;>
      simp [extract_error_details, openai_extract_error_details,
        anthropic_extract_error_details, gemini_extract_error_details, h]
  · intro fields err s h he hm hs p
    cases p <;>
      simp [extract_error_details, openai_extract_error_details,
        anthropic_extract_error_details, gemini_extract_error_details,
        h, he, hm, pyOr, pyTruthy, hs]
  · intro fields err h he hm p
    cases p <;>
      simp [extract_error_details, openai_extract_error_details,
        anthropic_extract_error_details, gemini_extract_error_details,
        h, he, hm, pyOr, pyTruthy]
  · intro v h hv p
    cases p <;> cases v <;>
      simp_all [extract_error_details, openai_extract_error_details,
        anthropic_extract_error_details, gemini_extract_error_details,
        JVal.isObj]
  · intro fields h he
    refine ⟨?_, ?_, ?_⟩ <;>
      · simp only [extract_error_details, openai_extract_error_details,
          anthropic_extract_error_details, gemini_extract_error_details, h]
        cases hev : pyGet fields "error" <;>
          simp_all [JVal.isObj]

/-- C3, witness: a 429 whose body carries the Anthropic-shaped envelope
`{"error":{"message":"rate limited"}}` is surfaced with that message and
status 429. -/
theorem C3_witness :
    (extract_error_details .anthropic
      { status_code := 429, text := "raw",
        jsonBody := some (.obj [("error", .obj [("message", .str "rate limited")])]),
        headers := [] }).message = .str "rate limited" :=
  (C3_api_error "claude-3"
    { status_code := 429, text := "raw",
      jsonBody := some (.obj [("error", .obj [("message", .str "rate limited")])]),
      headers := [] }).2.2.1
    [("error", JVal.obj [("message", .str "rate limited")])]
    [("message", JVal.str "rate limited")] "rate limited"
    rfl rfl rfl (by decide) .anthropic

/-! ## Claim C7: credential resolution at construction -/

/-- C7: for every adapter, an explicitly supplied key wins over the
environment; the sentinel `"default"` reads the vendor's fixed
environment variable; when the resolved key is absent or empty,
construction fails with `MissingAPIKeyError` carrying the provider
identity and a remediation hint naming the expected environment variable;
otherwise construction succeeds with that key. `provInit` has no access
to a transport, so no network activity can occur during construction. -/
theorem C7_credential (p : Prov) (model apiKey : String)
    (env : String → Option String) (k : String) :
    (apiKey ≠ "default" → resolve_api_key p apiKey env = some apiKey) ∧
    (apiKey = "default" →
      resolve_api_key p apiKey env = env (provEnvKeyName p)) ∧
    (optStrTruthy (resolve_api_key p apiKey env) = false →
      provInit p model apiKey env =
        .error (.missingKey (provName p) (provDisplayName p) model
          ("Set the " ++ provEnvKeyName p ++
           " environment variable or pass api_key explicitly."))) ∧
    (resolve_api_key p apiKey env = some k → k ≠ "" →
      provInit p model apiKey env = .ok { model := model, apiKey := k }) := by
  refine ⟨?_, ?_, ?_, ?_⟩
  · intro h
    simp [resolve_api_key, h]
  · intro h
    simp [resolve_api_key, load_env_api_key, h]
  · intro h
    simp [provInit, h]
  · intro h hk
    simp [provInit, h, optStrTruthy, hk]

/-- C7, witness: no explicit key and an empty environment fails with the
`MissingAPIKeyError` naming `GEMINI_API_KEY`; an explicit key `sk-1` is
used as-is even when the environment is empty. -/
theorem C7_witness :
    provInit .gemini "gemini-pro" "default" (fun _ => none) =
      .error (.missingKey "gemini" "Gemini" "gemini-pro"
        "Set the GEMINI_API_KEY environment variable or pass api_key explicitly.") ∧
    provInit .openai "gpt-4" "sk-1" (fun _ => none) =
      .ok { model := "gpt-4", apiKey := "sk-1" } :=
  ⟨(C7_credential .gemini "gemini-pro" "default" (fun _ => none) "").2.2.1 rfl,
   (C7_credential .openai "gpt-4" "sk-1" (fun _ => none) "sk-1").2.2.2
     rfl (by decide)⟩

/-! ## Claim C8: the Anthropic max-tokens default -/

/-- C8: for every (duplicate-free) configuration state, the Anthropic
outbound payload always contains `max_tokens` — the configured value when
set, the default 1024 when unset — while the OpenAI payload contains
`max_tokens`, and the Gemini payload's `generationConfig` contains
`maxOutputTokens`, exactly when the configuration does. -/
theorem C8_max_tokens_default (model : String) (config : PyDict)
    (sysP : Option String) (msgs : List JVal)
    (hn : dnodup config = true) :
    (dget (anthropic_build_payload model config sysP msgs) "max_tokens" =
      (match dget config "max_tokens" with
       | some v => some v
       | none => some (.int 1024))) ∧
    (dget (openai_build_payload model config sysP msgs) "max_tokens" =
      dget config "max_tokens") ∧
    ((match dget (gemini_build_payload config sysP msgs) "generationConfig" with
      | some (.obj g) => dget g "maxOutputTokens"
      | _ => none) = dget config "maxOutputTokens") := by
  refine ⟨?_, ?_, ?_⟩
  · unfold anthropic_build_payload
    have hstep : ∀ P : PyDict,
        dget (match sysP with
              | some t => dset P "system" (.str t)
              | none => P) "max_tokens" = dget P "max_tokens" := by
      intro P
      cases sysP with
      | none => rfl
      | some t => rw [dget_dset]; simp
    rw [hstep, dget_dupdate]
    have hnn : dnodup (dsetdefault config "max_tokens" (.int 1024)) = true := by
      unfold dsetdefault
      cases h : dget config "max_tokens"
      · exact dnodup_dset config _ _ hn
      · exact hn
    rw [dlast_eq_dget_of_nodup _ _ hnn]
    unfold dsetdefault
    cases h : dget config "max_tokens" with
    | none => rw [dget_dset]; simp
    | some v => simp [h, dget]
  · unfold openai_build_payload
    cases hc : config.isEmpty with
    | true =>
        have : config = [] := by
          cases config
          · rfl
          · simp [List.isEmpty] at hc
        subst this
        simp [dget]
    | false =>
        simp only [Bool.false_eq_true, if_false]
        rw [dget_dupdate, dlast_eq_dget_of_nodup _ _ hn]
        cases h : dget config "max_tokens" <;> simp [dget, Option.or]
  · unfold gemini_build_payload
    cases hc : config.isEmpty with
    | true =>
        have : config = [] := by
          cases config
          · rfl
          · simp [List.isEmpty] at hc
        subst this
        cases sysP <;> simp [dget, dset]
    | false =>
        simp only [Bool.false_eq_true, if_false]
        rw [dget_dset]
        simp

/-- C8, witness: with an empty configuration the Anthropic payload carries
the default `max_tokens = 1024`; with `max_tokens` configured to 100 it
carries 100, while the OpenAI payload carries `max_tokens` only in the
second case. -/
theorem C8_witness :
    dget (anthropic_build_payload "claude-3" [] none []) "max_tokens" =
      some (JVal.int 1024) ∧
    dget (anthropic_build_payload "claude-3" [("max_tokens", JVal.int 100)]
      none []) "max_tokens" = some (JVal.int 100) ∧
    dget (openai_build_payload "gpt-4" [] none []) "max_tokens" = none :=
  ⟨((C8_max_tokens_default "claude-3" [] none [] rfl).1).trans rfl,
   ((C8_max_tokens_default "claude-3" [("max_tokens", JVal.int 100)] none []
      rfl).1).trans rfl,
   ((C8_max_tokens_default "gpt-4" [] none [] rfl).2.1).trans rfl⟩

/-! ## Claim C10: role normalization and null content -/

theorem pyOr_str_empty (r : String) : pyOr (.str r) (.str "") = .str r := by
  by_cases h : r = "" <;> simp [pyOr, pyTruthy, h]

/-- C10: for every adapter's message translation, the role string is
stripped and lower-cased before validation (so `"User"` and `" MODEL "`
are accepted), and a message whose `content` is missing or null (both
read as `None` through `dict.get`) is translated to an empty-string
content rather than rejected. -/
theorem C10_role_case_insensitive (r : String) (rest : List Msg)
    (h : strLower (strStrip r) = "user" ∨ strLower (strStrip r) = "model") :
    (openai_convert_messages ({ role := .str r, content := .null } :: rest) =
      (openai_convert_messages rest).map (fun l =>
        .obj [("role", .str (if strLower (strStrip r) = "user" then "user" else "assistant")),
              ("content", .str "")] :: l)) ∧
    (anthropic_convert_messages ({ role := .str r, content := .null } :: rest) =
      (anthropic_convert_messages rest).map (fun l =>
        .obj [("role", .str (if strLower (strStrip r) = "user" then "user" else "assistant")),
              ("content", .str "")] :: l)) ∧
    (gemini_convert_messages ({ role := .str r, content := .null } :: rest) =
      (gemini_convert_messages rest).map (fun l =>
        .obj [("role", .str (strLower (strStrip r))),
              ("parts", .arr [.obj [("text", .str "")]])] :: l)) := by
  have hrole : roleOf { role := .str r, content := .null } =
      .ok (strLower (strStrip r)) := by
    simp [roleOf, pyOr_str_empty]
  have hcontent : contentOf { role := .str r, content := .null } = "" := by
    simp [contentOf, pyOr, pyTruthy, pyStr]
  refine ⟨?_, ?_, ?_⟩
  · rcases h with h | h <;>
      cases hrest : openai_convert_messages rest <;>
        simp [openai_convert_messages, hrole, h, hcontent, hrest, Except.map]
  · rcases h with h | h <;>
      cases hrest : anthropic_convert_messages rest <;>
        simp [anthropic_convert_messages, hrole, h, hcontent, hrest, Except.map]
  · rcases h with h | h <;>
      cases hrest : gemini_convert_messages rest <;>
        simp [gemini_convert_messages, hrole, h, hcontent, hrest, Except.map]

/-- C10, witness: `" MODEL "` with a null content is accepted by the
Gemini adapter as role `model` with empty content, and `"User"` with a
null content by the OpenAI adapter as role `user`. -/
theorem C10_witness :
    gemini_convert_messages [{ role := .str " MODEL ", content := .null }] =
      .ok [.obj [("role", .str "model"), ("parts", .arr [.obj [("text", .str "")]])]] ∧
    openai_convert_messages [{ role := .str "User", content := .null }] =
      .ok [.obj [("role", .str "user"), ("content", .str "")]] :=
  ⟨((C10_role_case_insensitive " MODEL " [] (Or.inr (by decide))).2.2).trans rfl,
   ((C10_role_case_insensitive "User" [] (Or.inl (by decide))).1).trans rfl⟩

/-! ## Claim C2: unsupported roles are rejected before the network -/

/-- C2, counterexample. The role-validation `ValueError` is the same
whether the offending message stands at index 0 or at index 1: the error
value is `Unsupported role 'system'. Use 'user' or 'model'.` in both
cases and carries no position/index, so the claim's requirement that the
error name the offending message's position/index does not hold. -/
theorem C2_counterexample :
    openai_convert_messages
        [{ role := .str "system", content := .str "x" }] =
      .error (.valueError "Unsupported role 'system'. Use 'user' or 'model'.") ∧
    openai_convert_messages
        [{ role := .str "user", content := .str "hi" },
         { role := .str "system", content := .str "x" }] =
      .error (.valueError "Unsupported role 'system'. Use 'user' or 'model'.") :=
  ⟨rfl, rfl⟩

theorem convert_error_of_bad_role (p : Prov) (pre : List Msg) (m : Msg)
    (post : List Msg) (r : String)
    (hpre : pre.all roleOk = true)
    (hm : roleOf m = .ok r)
    (hbad : (r = "user" || r = "model") = false) :
    convert_messages p (pre ++ m :: post) =
      .error (.valueError (unsupportedRoleMsg r)) := by
  induction pre with
  | nil =>
      cases p <;>
        simp [convert_messages, openai_convert_messages,
          anthropic_convert_messages, gemini_convert_messages, hm, hbad]
  | cons x rest ih =>
      simp only [List.all_cons, Bool.and_eq_true] at hpre
      obtain ⟨hx, hrest⟩ := hpre
      have ih' := ih hrest
      unfold roleOk at hx
      cases hrx : roleOf x with
      | error e => rw [hrx] at hx; simp at hx
      | ok rx =>
          rw [hrx] at hx
          cases p <;>
            simp_all [convert_messages, openai_convert_messages,
              anthropic_convert_messages, gemini_convert_messages, hrx, hx]

/-- C2 (amended): for every adapter, a message list whose first offending
message (every earlier role valid) normalizes to a role `r` outside
`{user, model}` makes `chat` fail with the role-validation `ValueError`
naming `r` — the error does not carry the message's position/index — and
the transport is never invoked (the list of posted payloads is empty). -/
theorem C2_bad_role_no_network (p : Prov) (st : ProvState) (pre : List Msg)
    (m : Msg) (post : List Msg) (r : String)
    (tr : JVal → TransportResult)
    (hpre : pre.all roleOk = true)
    (hm : roleOf m = .ok r)
    (hbad : (r = "user" || r = "model") = false) :
    chat p st (pre ++ m :: post) tr =
      (.error (.valueError (unsupportedRoleMsg r)), []) := by
  unfold chat
  rw [convert_error_of_bad_role p pre m post r hpre hm hbad]

/-- C2, witness: a `tool` message after a valid `user` message makes the
Anthropic adapter's `chat` fail with the role-naming error and post
nothing, whatever the transport would have answered. -/
theorem C2_witness :
    chat .anthropic { model := "claude-3" }
        [{ role := .str "user", content := .str "hi" },
         { role := .str "tool", content := .str "x" }]
        (fun _ => .timeout) =
      (.error (.valueError "Unsupported role 'tool'. Use 'user' or 'model'."), []) :=
  C2_bad_role_no_network .anthropic { model := "claude-3" }
    [{ role := .str "user", content := .str "hi" }]
    { role := .str "tool", content := .str "x" } [] "tool"
    (fun _ => .timeout) rfl rfl rfl

/-! ## Claim C6: `config` merges rather than overwrites -/

/-- C6: for every adapter, two successful `config` calls merge: a key
written by the first call keeps its value in the stored configuration
when the second call's option set is disjoint from the first's; a key the
second call does not write is left unchanged by it; and a key the second
call writes ends with the second call's value. -/
theorem C6_config_merge (p : Prov) (st st1 st2 : PyDict) (o1 o2 : CfgOpts)
    (k : String) (v : JVal)
    (h1 : config_of p st o1 = .ok st1)
    (h2 : config_of p st1 o2 = .ok st2)
    (hdisj : ∀ k', k' ∈ (cfg_of p o1).map Prod.fst →
      k' ∉ (cfg_of p o2).map Prod.fst) :
    (k ∈ (cfg_of p o1).map Prod.fst → dget st2 k = dget st1 k) ∧
    (k ∉ (cfg_of p o2).map Prod.fst → dget st2 k = dget st1 k) ∧
    (dlast (cfg_of p o2) k = some v → dget st2 k = some v) := by
  have e1 := config_of_ok p st st1 o1 h1
  have e2 := config_of_ok p st1 st2 o2 h2
  subst e2
  refine ⟨?_, ?_, ?_⟩
  · intro hk
    rw [dget_dupdate, dlast_eq_none_of_not_mem_keys _ _ (hdisj k hk)]
    rfl
  · intro hk
    rw [dget_dupdate, dlast_eq_none_of_not_mem_keys _ _ hk]
    rfl
  · intro hv
    rw [dget_dupdate, hv]
    rfl

/-- C6, witness: configuring `temperature` then separately `max_tokens`
on the OpenAI adapter leaves the first value in place and adds the
second. -/
theorem C6_witness :
    dget [("temperature", JVal.int 1), ("max_tokens", JVal.int 100)]
        "temperature" =
      dget [("temperature", JVal.int 1)] "temperature" ∧
    dget [("temperature", JVal.int 1), ("max_tokens", JVal.int 100)]
        "max_tokens" = some (JVal.int 100) :=
  ⟨(C6_config_merge .openai [] [("temperature", JVal.int 1)]
      [("temperature", JVal.int 1), ("max_tokens", JVal.int 100)]
      { temperature := some (JVal.int 1) }
      { max_tokens := some (JVal.int 100) }
      "temperature" (JVal.int 1) rfl rfl (by decide)).1 (by decide),
   (C6_config_merge .openai [] [("temperature", JVal.int 1)]
      [("temperature", JVal.int 1), ("max_tokens", JVal.int 100)]
      { temperature := some (JVal.int 1) }
      { max_tokens := some (JVal.int 100) }
      "max_tokens" (JVal.int 100) rfl rfl (by decide)).2.2 rfl⟩
